import Mathlib

/-!
Verification of the order-lifecycle synchronization core of the
Final-sambhav-aws repository, shallowly embedded in Lean 4.

The embedding follows the TypeScript sources:
* `utils/mockData.ts` — entity types and the seeded `MOCK_ORDERS`,
  `MOCK_SHIPMENTS`, `MOCK_DOCUMENTS` collections.  All `Math.random()`
  draws, timestamps and uuid generation are threaded explicitly through
  an `Env` record so that the seeding logic itself is a pure function.
* `store/slices/orderSlice.ts` — the `updateOrderStatus` reducer and the
  `updateOrderStatusAndGenerateLabel` thunk (the `advance` operation of
  the spec).  The thunk's own `Math.random()` draw and `new Date()` are
  per-call parameters; the possibility that the trailing
  `localStorage.setItem` persistence step throws (caught by the thunk's
  `try/catch`, which returns `false` without undoing the dispatched
  state updates) is modelled by the `storageFails` flag.

Redux maps (plain JS objects keyed by strings, insertion ordered) are
modelled as association lists with in-place-update / append-on-new
`upsert` semantics.
-/

namespace Sambhav

/-- Keyed lookup in a JS-object-like association list (first match wins). -/
def alookup {α : Type} (l : List (String × α)) (k : String) : Option α :=
  match l with
  | [] => none
  | (k', v) :: t => if k' = k then some v else alookup t k

/-- Property assignment on a JS-object-like association list: replaces the
value at an existing key in place, appends a new entry otherwise. -/
def upsert {α : Type} (l : List (String × α)) (k : String) (v : α) :
    List (String × α) :=
  match l with
  | [] => [(k, v)]
  | (k', v') :: t => if k' = k then (k, v) :: t else (k', v') :: upsert t k v

/-- ASCII uppercase of one character, as in JS `toUpperCase` on the
ASCII document names used by the source. -/
def upChar (c : Char) : Char :=
  if 'a' ≤ c ∧ c ≤ 'z' then Char.ofNat (c.toNat - 32) else c

/-- ASCII lowercase of one character (JS `toLowerCase`). -/
def downChar (c : Char) : Char :=
  if 'A' ≤ c ∧ c ≤ 'Z' then Char.ofNat (c.toNat + 32) else c

/-- JS `String.prototype.toUpperCase` for the ASCII strings in play. -/
def toUpperAscii (s : String) : String := ⟨s.data.map upChar⟩

/-- JS `String.prototype.toLowerCase` for the ASCII strings in play. -/
def toLowerAscii (s : String) : String := ⟨s.data.map downChar⟩

def isSpaceChar (c : Char) : Bool := c = ' '

/-- JS `String.prototype.trim` (the addresses in play only use spaces). -/
def trimAscii (s : String) : String :=
  ⟨((s.data.dropWhile isSpaceChar).reverse.dropWhile isSpaceChar).reverse⟩

def splitGo (sep : Char) : List Char → List Char → List String
  | [], acc => [⟨acc.reverse⟩]
  | c :: cs, acc =>
      if c = sep then ⟨acc.reverse⟩ :: splitGo sep cs []
      else splitGo sep cs (c :: acc)

/-- JS `String.prototype.split` with a one-character separator. -/
def splitOnChar (sep : Char) (s : String) : List String := splitGo sep s.data []

inductive OrderStatus where
  | OPEN | SHIPPED | DELIVERED
deriving DecidableEq, Repr

inductive ShipmentStatus where
  | orderReceived | orderPicked | inTransit | outForDelivery | reachedDestination
deriving DecidableEq, Repr

inductive DocType where
  | Invoice | PackingList | CertificateOfOrigin | Label
deriving DecidableEq, Repr

inductive DocStatus where
  | Draft | Final | Approved | Rejected
deriving DecidableEq, Repr

structure Product where
  name : String
  dimensions : String
  weight : String
  quantity : Nat
deriving DecidableEq, Repr

structure Order where
  order_id : String
  order_placed_timestamp : String
  order_status : OrderStatus
  product : Product
  customer_address : String
  warehouse_address : String
  seller_address : String
deriving DecidableEq, Repr

structure TrackingEvent where
  id : String
  timestamp : String
  location : String
  status : String
  description : String
  type : ShipmentStatus
deriving DecidableEq, Repr

structure Shipment where
  id : String
  tracking_number : String
  orderId : String
  origin : String
  destination : String
  status : ShipmentStatus
  carrier : String
  type : String
  eta : String
  lastUpdate : String
  progress : Nat
  tracking : List TrackingEvent
deriving DecidableEq, Repr

structure Document where
  id : String
  orderId : String
  name : String
  type : DocType
  date : String
  size : String
  status : DocStatus
  url : String
  carrier : Option String
  trackingNumber : Option String
deriving DecidableEq, Repr

/-- Ambient nondeterminism of `mockData.ts` made explicit: the current
time, the derived past timestamps (`new Date()` minus a random
`daysAgo`, kept abstract as a map from loop index to ISO string), the
`Math.random()` draws, and `uuidv4()`. -/
structure Env where
  now : String
  pastTs : Nat → String
  qtyDraw : Nat → Nat
  destDraw : Nat → Nat
  carrierDraw : String → Nat
  trkDraw : String → Nat
  uuid : String → Nat → String

def destinations : List String :=
  [ "John Smith, 123 Main Street, New York, NY 10001, USA",
    "Emily Roberts, 45 Victoria Street, Manchester, M2 3NH, United Kingdom",
    "James Cook, 78 Digital Avenue, Sydney, NSW 2000, Australia" ]

def warehouseAddress : String :=
  "GADA RETAIL PRIVATE LIMITED, Suburb Residency Private Limited Plot No 01, Omshree Industrial Park PO, PS -, MUMBAI, 400001, INDIA"

def galaxyProduct (q : Nat) : Product :=
  { name := "Samsung Galaxy S23 Ultra 512GB Phantom Black"
    dimensions := "16.39 x 7.89 x 0.89 cm"
    weight := "234g"
    quantity := q }

/-- The hand-written open order `ORD340001` of `MOCK_ORDERS`. -/
def openOrder (env : Env) : Order :=
  { order_id := "ORD340001"
    order_placed_timestamp := env.now
    order_status := .OPEN
    product := galaxyProduct 2
    customer_address := destinations.getD 0 ""
    warehouse_address := warehouseAddress
    seller_address := warehouseAddress }

/-- Loop index of the generated past order: `orderNumber = 340002 + i`. -/
def pastId (i : Nat) : String := "ORD" ++ toString (340002 + i)

/-- One generated past order (always `DELIVERED` in the source loop). -/
def mkPastOrder (env : Env) (i : Nat) : Order :=
  { order_id := pastId i
    order_placed_timestamp := env.pastTs i
    order_status := .DELIVERED
    product := galaxyProduct (env.qtyDraw i % 3 + 1)
    customer_address := destinations.getD (env.destDraw i % 3) ""
    warehouse_address := warehouseAddress
    seller_address := warehouseAddress }

/-- The loop `for (let i = 1; i <= 29; i++)`. -/
def loopIndices : List Nat := (List.range 29).map (· + 1)

/-- `MOCK_ORDERS`: the open order followed by the 29 generated ones
(keys are fresh, so JS property insertion is list append). -/
def MOCK_ORDERS (env : Env) : List (String × Order) :=
  ("ORD340001", openOrder env) ::
    loopIndices.map (fun i => (pastId i, mkPastOrder env i))

/-- The destination derivation
`order.customer_address.split(',').slice(-2,-1)[0].trim()`. -/
def destOf (addr : String) : String :=
  let parts := splitOnChar ',' addr
  trimAscii (parts.getD (parts.length - 2) "")

def carrierNames : List String := ["DHL Express", "FedEx", "UPS"]

/-- The shipment derived for one order in the `MOCK_SHIPMENTS` loop. -/
def mkShipment (env : Env) (orderId : String) (order : Order) : Shipment :=
  { id := "SHP-" ++ orderId
    tracking_number := "TRK" ++ toString (100000 + env.trkDraw orderId % 900000)
    orderId := orderId
    origin := "Mumbai, India"
    destination := destOf order.customer_address
    status :=
      if orderId = "ORD340001" then .orderReceived
      else if order.order_status = .DELIVERED then .reachedDestination
      else .inTransit
    carrier := carrierNames.getD (env.carrierDraw orderId % 3) ""
    type := "Express Air Freight"
    eta := order.order_placed_timestamp
    lastUpdate :=
      if orderId = "ORD340001" then "Order received and processing"
      else if order.order_status = .DELIVERED then "Package delivered"
      else "Package in transit"
    progress :=
      if orderId = "ORD340001" then 20
      else if order.order_status = .DELIVERED then 100
      else 60
    tracking :=
      [ { id := env.uuid orderId 0
          timestamp := order.order_placed_timestamp
          location := "Mumbai, India"
          status := "Order Received"
          description := "Order has been received"
          type := .orderReceived },
        { id := env.uuid orderId 1
          timestamp := order.order_placed_timestamp
          location := "Mumbai, India"
          status :=
            if orderId = "ORD340001" then "Order Received"
            else if order.order_status = .DELIVERED then "Reached Destination"
            else "Order in Transit"
          description :=
            if orderId = "ORD340001" then "Order received and processing"
            else if order.order_status = .DELIVERED then "Package delivered"
            else "Package in transit"
          type :=
            if orderId = "ORD340001" then .orderReceived
            else if order.order_status = .DELIVERED then .reachedDestination
            else .inTransit } ] }

/-- `MOCK_SHIPMENTS`: one shipment per order, keyed `SHP-<orderId>`. -/
def MOCK_SHIPMENTS (env : Env) : List (String × Shipment) :=
  (MOCK_ORDERS env).map (fun kv => ("SHP-" ++ kv.1, mkShipment env kv.1 kv.2))

def stdDocNames : List (String × DocType) :=
  [("Invoice", .Invoice), ("Packing List", .PackingList),
   ("Certificate of Origin", .CertificateOfOrigin)]

def bucketUrl : String :=
  "https://aws-exportedge-dev-order-processing-bucket.s3.us-east-1.amazonaws.com/orders_docs/"

/-- One of the three standard documents added for every order. -/
def mkStdDoc (orderId : String) (order : Order) (nt : String × DocType) :
    String × Document :=
  let docId := "DOC-" ++ orderId ++ "-" ++ toUpperAscii nt.1
  (docId,
   { id := docId
     orderId := orderId
     name := nt.1
     type := nt.2
     date := order.order_placed_timestamp
     size := "245 KB"
     status := .Final
     url :=
       if orderId = "ORD340001" then
         bucketUrl ++ "1example/ORD34001_invoice.pdf"
       else
         bucketUrl ++ orderId ++ "/" ++ orderId ++ "_" ++ toLowerAscii nt.1 ++ ".pdf"
     carrier := none
     trackingNumber := none })

/-- The shipping-label document added at seed time for `DELIVERED`
orders, copying carrier and tracking number from `MOCK_SHIPMENTS`. -/
def mkSeedLabelDoc (env : Env) (orderId : String) (order : Order) :
    String × Document :=
  let sh := mkShipment env orderId order
  let labelId := "DOC-" ++ orderId ++ "-LABEL"
  (labelId,
   { id := labelId
     orderId := orderId
     name := "Shipping Label"
     type := .Label
     date := order.order_placed_timestamp
     size := "125 KB"
     status := .Final
     url := bucketUrl ++ orderId ++ "/" ++ orderId ++ "_label.pdf"
     carrier := some sh.carrier
     trackingNumber := some sh.tracking_number })

/-- The documents produced for one order by the `MOCK_DOCUMENTS` loop:
the three standard documents, plus a label iff the order is DELIVERED. -/
def mkDocsFor (env : Env) (kv : String × Order) : List (String × Document) :=
  stdDocNames.map (mkStdDoc kv.1 kv.2) ++
    (if kv.2.order_status = .DELIVERED then [mkSeedLabelDoc env kv.1 kv.2]
     else [])

/-- `MOCK_DOCUMENTS`: the documents of every order, in order-loop order. -/
def MOCK_DOCUMENTS (env : Env) : List (String × Document) :=
  (MOCK_ORDERS env).flatMap (mkDocsFor env)

/-- The redux store slices relevant to the lifecycle core: the order map
of `orderSlice`, the document map of `documentSlice`, and the shipment
map (seeded from `MOCK_SHIPMENTS`; no reducer in the source ever
modifies it). -/
structure StoreState where
  orders : List (String × Order)
  documents : List (String × Document)
  shipments : List (String × Shipment)
deriving DecidableEq, Repr

/-- The process-start state: all three entity maps filled from the mocks. -/
def initialState (env : Env) : StoreState :=
  { orders := MOCK_ORDERS env
    documents := MOCK_DOCUMENTS env
    shipments := MOCK_SHIPMENTS env }

/-- The `updateOrderStatus` reducer of `orderSlice`: sets the status if
the order exists, silently does nothing otherwise. -/
def updateOrderStatus (s : StoreState) (orderId : String)
    (status : OrderStatus) : StoreState :=
  match alookup s.orders orderId with
  | some o =>
      { s with orders := upsert s.orders orderId { o with order_status := status } }
  | none => s

/-- Modelled from the spec: the `addShippingLabel` reducer of
`documentSlice.ts` is not among the provided sources (only its import and
dispatch site are); per the spec's Snapshot Store, `put(kind, id, entity)`
is an upsert that overwrites, so the reducer stores the label document
under its id, overwriting any previous document with that id. -/
def addShippingLabel (s : StoreState) (doc : Document) : StoreState :=
  { s with documents := upsert s.documents doc.id doc }

/-- The label document literal the thunk dispatches: a local `shipment`
object — `DHL Express` with a fixed tracking number when the order id is
the (misspelled) `ORD34001`, otherwise `FedEx` with a fresh random
tracking number — spread into the document fields. -/
def advanceLabel (orderId : String) (nowIso : String) (rnd : Nat) : Document :=
  let shCarrier := if orderId = "ORD34001" then "DHL Express" else "FedEx"
  let shTracking :=
    if orderId = "ORD34001" then "DHL7890123456"
    else "TRK" ++ toString (100000 + rnd % 900000)
  { id := "DOC-" ++ orderId ++ "-LABEL"
    orderId := orderId
    name := "Shipping Label"
    type := .Label
    date := nowIso
    size := "125 KB"
    status := .Final
    url := bucketUrl ++ orderId ++ "/" ++ orderId ++ "_label.pdf"
    carrier := some shCarrier
    trackingNumber := some shTracking }

/-- The `updateOrderStatusAndGenerateLabel` thunk of `orderSlice`
(the spec's `advance`).  `nowIso` is the thunk's `new Date()`, `rnd` its
`Math.random()` draw, and `storageFails` whether the trailing
`localStorage.setItem` throws — in which case the `catch` returns
`false`, with the already-dispatched state updates left in place. -/
def updateOrderStatusAndGenerateLabel (s : StoreState) (orderId : String)
    (status : OrderStatus) (nowIso : String) (rnd : Nat)
    (storageFails : Bool) : StoreState × Bool :=
  let s1 := updateOrderStatus s orderId status
  let s2 := addShippingLabel s1 (advanceLabel orderId nowIso rnd)
  (s2, !storageFails)

/-- A concrete instantiation of the ambient nondeterminism, for
evaluating the seeded store at specific inputs. -/
def env0 : Env :=
  { now := "2024-06-01T00:00:00.000Z"
    pastTs := fun _ => "2024-01-01T00:00:00.000Z"
    qtyDraw := fun _ => 0
    destDraw := fun _ => 0
    carrierDraw := fun _ => 0
    trkDraw := fun _ => 0
    uuid := fun oid n => oid ++ "-evt-" ++ toString n }

/-- The state reached from seeded store `env0` at process start. -/
def seeded : StoreState := initialState env0

/-- The document key under which the label for an order is stored. -/
def labelKey (orderId : String) : String := "DOC-" ++ orderId ++ "-LABEL"

/-- Whether `docs` holds a Label-kind document referencing order `id`
(the spec's `hasLabelDocument`). -/
def hasLabelDocument (docs : List (String × Document)) (id : String) : Bool :=
  docs.any (fun kv => decide (kv.2.type = DocType.Label ∧ kv.2.orderId = id))

/-- Number of Label-kind documents referencing order `id`. -/
def labelCount (docs : List (String × Document)) (id : String) : Nat :=
  (docs.filter (fun kv => decide (kv.2.type = DocType.Label ∧ kv.2.orderId = id))).length

/-- All documents referencing order `id`. -/
def docsFor (docs : List (String × Document)) (id : String) :
    List (String × Document) :=
  docs.filter (fun kv => decide (kv.2.orderId = id))

/-- All shipments referencing order `id`. -/
def shipmentsFor (shps : List (String × Shipment)) (id : String) :
    List (String × Shipment) :=
  shps.filter (fun kv => decide (kv.2.orderId = id))

/-- The spec's snapshot invariant: for every order id in the store, a
Label document exists exactly when the order's status is not OPEN. -/
def LabelInv (s : StoreState) : Prop :=
  ∀ id o, alookup s.orders id = some o →
    (hasLabelDocument s.documents id = true ↔ o.order_status ≠ .OPEN)

/-- Structural side invariant: every Label-kind document is stored under
the key derived from the order it references. -/
def WellKeyed (docs : List (String × Document)) : Prop :=
  ∀ kv ∈ docs, kv.2.type = DocType.Label → kv.1 = labelKey kv.2.orderId

/-- States observable through the lifecycle core: the seeded store, and
anything an `advance` call (any order id, either forward target status
of the trigger interface, any timestamp and random draw, persistence
failing or not) produces from an observable state. -/
inductive Reachable : StoreState → Prop where
  | seed (env : Env) : Reachable (initialState env)
  | advance (s : StoreState) (orderId : String) (st : OrderStatus)
      (nowIso : String) (rnd : Nat) (storageFails : Bool) :
      Reachable s → st ≠ .OPEN →
      Reachable (updateOrderStatusAndGenerateLabel s orderId st nowIso rnd storageFails).1

theorem alookup_upsert_self {α : Type} (l : List (String × α)) (k : String)
    (v : α) : alookup (upsert l k v) k = some v := by
  induction l with
  | nil => simp [upsert, alookup]
  | cons kv t ih =>
      obtain ⟨k', v'⟩ := kv
      by_cases h : k' = k
      · simp [upsert, h, alookup]
      · simp [upsert, h, alookup, ih]

theorem alookup_upsert_ne {α : Type} (l : List (String × α)) (k k' : String)
    (v : α) (h : k' ≠ k) : alookup (upsert l k v) k' = alookup l k' := by
  induction l with
  | nil => simp [upsert, alookup, Ne.symm h]
  | cons kv t ih =>
      obtain ⟨k₀, v₀⟩ := kv
      by_cases hk : k₀ = k
      · subst hk
        simp [upsert, alookup, Ne.symm h]
      · simp [upsert, hk, alookup, ih]

theorem upsert_alookup_eq {α : Type} (l : List (String × α)) (k : String)
    (v : α) (h : alookup l k = some v) : upsert l k v = l := by
  induction l with
  | nil => simp [alookup] at h
  | cons kv t ih =>
      obtain ⟨k₀, v₀⟩ := kv
      by_cases hk : k₀ = k
      · subst hk
        simp [alookup] at h
        simp [upsert, h]
      · simp [alookup, hk] at h
        simp [upsert, hk, ih h]

theorem length_upsert_of_alookup {α : Type} (l : List (String × α))
    (k : String) (v w : α) (h : alookup l k = some w) :
    (upsert l k v).length = l.length := by
  induction l with
  | nil => simp [alookup] at h
  | cons kv t ih =>
      obtain ⟨k₀, v₀⟩ := kv
      by_cases hk : k₀ = k
      · simp [upsert, hk]
      · simp [alookup, hk] at h
        simp [upsert, hk, ih h]

theorem mem_upsert_self {α : Type} (l : List (String × α)) (k : String)
    (v : α) : (k, v) ∈ upsert l k v := by
  induction l with
  | nil => simp [upsert]
  | cons kv t ih =>
      obtain ⟨k₀, v₀⟩ := kv
      by_cases hk : k₀ = k
      · simp [upsert, hk]
      · simp [upsert, hk]
        exact Or.inr ih

theorem mem_upsert {α : Type} (l : List (String × α)) (k : String) (v : α)
    (x : String × α) (hx : x ∈ upsert l k v) : x ∈ l ∨ x = (k, v) := by
  induction l with
  | nil => simpa [upsert] using hx
  | cons kv t ih =>
      obtain ⟨k₀, v₀⟩ := kv
      by_cases hk : k₀ = k
      · simp [upsert, hk] at hx
        rcases hx with h | h
        · exact Or.inr (by simp [h])
        · exact Or.inl (by simp [h])
      · simp [upsert, hk] at hx
        rcases hx with h | h
        · exact Or.inl (by simp [h])
        · rcases ih h with h' | h'
          · exact Or.inl (by simp [h'])
          · exact Or.inr h'

theorem filter_length_upsert {α : Type} (p : String × α → Bool)
    (l : List (String × α)) (k : String) (v w : α)
    (h : alookup l k = some w) (hp : p (k, v) = p (k, w)) :
    ((upsert l k v).filter p).length = (l.filter p).length := by
  induction l with
  | nil => simp [alookup] at h
  | cons kv t ih =>
      obtain ⟨k₀, v₀⟩ := kv
      by_cases hk : k₀ = k
      · subst hk
        simp [alookup] at h
        subst h
        cases hpv : p (k₀, v₀) <;>
          simp [upsert, List.filter, hp, hpv]
      · simp [alookup, hk] at h
        simp [upsert, hk, List.filter]
        cases hp0 : p (k₀, v₀) <;> simp [hp0, ih h]

theorem str_data_inj : ∀ {s t : String}, s.data = t.data → s = t
  | ⟨_⟩, ⟨_⟩, rfl => rfl

theorem data_append : ∀ (s t : String), (s ++ t).data = s.data ++ t.data
  | ⟨_⟩, ⟨_⟩ => rfl

theorem labelKey_inj {a b : String} (h : labelKey a = labelKey b) : a = b := by
  have hd := congrArg String.data h
  rw [labelKey, labelKey, data_append, data_append, data_append, data_append]
    at hd
  exact str_data_inj (List.append_cancel_left (List.append_cancel_right hd))

theorem bool_eq_of_iff {a b : Bool} (h : a = true ↔ b = true) : a = b := by
  cases a <;> cases b <;> simp_all

theorem mem_upsert_of_ne {α : Type} (l : List (String × α)) (k : String)
    (v : α) (x : String × α) (hx : x ∈ l) (hk : x.1 ≠ k) :
    x ∈ upsert l k v := by
  induction l with
  | nil => simp at hx
  | cons kv t ih =>
      obtain ⟨k₀, v₀⟩ := kv
      by_cases h0 : k₀ = k
      · subst h0
        simp [upsert]
        rcases List.mem_cons.1 hx with h | h
        · exact absurd (congrArg Prod.fst h) hk
        · exact Or.inr h
      · simp [upsert, h0]
        rcases List.mem_cons.1 hx with h | h
        · exact Or.inl h
        · exact Or.inr (ih h)

theorem updateOrderStatus_documents (s : StoreState) (oid : String)
    (st : OrderStatus) : (updateOrderStatus s oid st).documents = s.documents := by
  unfold updateOrderStatus
  cases alookup s.orders oid <;> rfl

theorem updateOrderStatus_shipments (s : StoreState) (oid : String)
    (st : OrderStatus) : (updateOrderStatus s oid st).shipments = s.shipments := by
  unfold updateOrderStatus
  cases alookup s.orders oid <;> rfl

theorem alookup_updateOrderStatus_ne (s : StoreState) (oid : String)
    (st : OrderStatus) (id : String) (h : id ≠ oid) :
    alookup (updateOrderStatus s oid st).orders id = alookup s.orders id := by
  unfold updateOrderStatus
  cases h0 : alookup s.orders oid with
  | none => rfl
  | some o => exact alookup_upsert_ne _ _ _ _ h

theorem advance_orders (s : StoreState) (oid : String) (st : OrderStatus)
    (t : String) (r : Nat) (f : Bool) :
    (updateOrderStatusAndGenerateLabel s oid st t r f).1.orders =
      (updateOrderStatus s oid st).orders := rfl

theorem advance_shipments (s : StoreState) (oid : String) (st : OrderStatus)
    (t : String) (r : Nat) (f : Bool) :
    (updateOrderStatusAndGenerateLabel s oid st t r f).1.shipments =
      s.shipments := by
  show (updateOrderStatus s oid st).shipments = s.shipments
  exact updateOrderStatus_shipments s oid st

theorem advance_documents (s : StoreState) (oid : String) (st : OrderStatus)
    (t : String) (r : Nat) (f : Bool) :
    (updateOrderStatusAndGenerateLabel s oid st t r f).1.documents =
      upsert s.documents (labelKey oid) (advanceLabel oid t r) := by
  show upsert (updateOrderStatus s oid st).documents _ _ = _
  rw [updateOrderStatus_documents]
  rfl

theorem advanceLabel_type (oid t : String) (r : Nat) :
    (advanceLabel oid t r).type = DocType.Label := rfl

theorem advanceLabel_orderId (oid t : String) (r : Nat) :
    (advanceLabel oid t r).orderId = oid := rfl

theorem alookup_pastList (env : Env) (l : List Nat) (id : String) (o : Order)
    (h : alookup (l.map fun i => (pastId i, mkPastOrder env i)) id = some o) :
    ∃ i ∈ l, id = pastId i ∧ o = mkPastOrder env i := by
  induction l with
  | nil => simp [alookup] at h
  | cons j t ih =>
      rw [List.map_cons] at h
      by_cases hj : pastId j = id
      · simp [alookup, hj] at h
        exact ⟨j, by simp, hj.symm, h.symm⟩
      · simp [alookup, hj] at h
        obtain ⟨i, hi, h1, h2⟩ := ih h
        exact ⟨i, by simp [hi], h1, h2⟩

theorem mock_orders_cases (env : Env) (id : String) (o : Order)
    (h : alookup (MOCK_ORDERS env) id = some o) :
    (id = "ORD340001" ∧ o = openOrder env) ∨
      ∃ i ∈ loopIndices, id = pastId i ∧ o = mkPastOrder env i := by
  unfold MOCK_ORDERS at h
  by_cases h1 : ("ORD340001" : String) = id
  · simp [alookup, h1] at h
    exact Or.inl ⟨h1.symm, h.symm⟩
  · simp [alookup, h1] at h
    exact Or.inr (alookup_pastList env _ id o h)

theorem pastId_ne_open : ∀ i ∈ loopIndices, pastId i ≠ "ORD340001" := by decide

theorem mock_orders_open (env : Env) (id : String) (o : Order)
    (h : alookup (MOCK_ORDERS env) id = some o)
    (ho : o.order_status = .OPEN) : id = "ORD340001" ∧ o = openOrder env := by
  rcases mock_orders_cases env id o h with hc | ⟨i, hi, h1, h2⟩
  · exact hc
  · subst h2
    exact absurd ho (by simp [mkPastOrder])

theorem mem_mkDocsFor_label (env : Env) (kv : String × Order)
    (d : String × Document) (hd : d ∈ mkDocsFor env kv)
    (ht : d.2.type = DocType.Label) :
    d = mkSeedLabelDoc env kv.1 kv.2 ∧ kv.2.order_status = .DELIVERED := by
  unfold mkDocsFor at hd
  rcases List.mem_append.1 hd with h | h
  · simp [stdDocNames] at h
    rcases h with h | h | h <;> subst h <;> simp [mkStdDoc] at ht
  · by_cases hdel : kv.2.order_status = .DELIVERED
    · simp [hdel] at h
      exact ⟨h, hdel⟩
    · simp [hdel] at h

theorem seedLabel_mem_mkDocsFor (env : Env) (kv : String × Order)
    (hdel : kv.2.order_status = .DELIVERED) :
    mkSeedLabelDoc env kv.1 kv.2 ∈ mkDocsFor env kv := by
  unfold mkDocsFor
  exact List.mem_append.2 (Or.inr (by simp [hdel]))

theorem hasLabel_flatMap_iff (env : Env) (ords : List (String × Order))
    (id : String) :
    hasLabelDocument (ords.flatMap (mkDocsFor env)) id = true ↔
      ∃ kv ∈ ords, kv.1 = id ∧ kv.2.order_status = .DELIVERED := by
  unfold hasLabelDocument
  rw [List.any_eq_true]
  constructor
  · rintro ⟨d, hd, hp⟩
    rw [decide_eq_true_eq] at hp
    obtain ⟨kv, hkv, hdm⟩ := List.mem_flatMap.1 hd
    obtain ⟨hdl, hdel⟩ := mem_mkDocsFor_label env kv d hdm hp.1
    refine ⟨kv, hkv, ?_, hdel⟩
    have : d.2.orderId = kv.1 := by rw [hdl]; rfl
    rw [← this, hp.2]
  · rintro ⟨kv, hkv, hid, hdel⟩
    refine ⟨mkSeedLabelDoc env kv.1 kv.2,
      List.mem_flatMap.2 ⟨kv, hkv, seedLabel_mem_mkDocsFor env kv hdel⟩, ?_⟩
    rw [decide_eq_true_eq]
    exact ⟨rfl, hid⟩

theorem wellKeyed_flatMap (env : Env) (ords : List (String × Order)) :
    WellKeyed (ords.flatMap (mkDocsFor env)) := by
  intro kv hkv ht
  obtain ⟨kv0, hkv0, hdm⟩ := List.mem_flatMap.1 hkv
  obtain ⟨hdl, _⟩ := mem_mkDocsFor_label env kv0 kv hdm ht
  rw [hdl]
  rfl

theorem labelInv_initial (env : Env) : LabelInv (initialState env) := by
  intro id o hlk
  rcases mock_orders_cases env id o hlk with ⟨hid, ho⟩ | ⟨i, hi, hid, ho⟩
  · subst hid; subst ho
    constructor
    · intro hl
      rw [show (initialState env).documents = MOCK_DOCUMENTS env from rfl,
        MOCK_DOCUMENTS, hasLabel_flatMap_iff] at hl
      obtain ⟨kv, hkv, h1, h2⟩ := hl
      unfold MOCK_ORDERS at hkv
      rcases List.mem_cons.1 hkv with h | h
      · rw [h] at h2
        simp [openOrder] at h2
      · obtain ⟨i, hi, hkv'⟩ := List.mem_map.1 h
        rw [← hkv'] at h1
        exact absurd h1 (pastId_ne_open i hi)
    · intro ho
      exact absurd (rfl : (openOrder env).order_status = OrderStatus.OPEN) ho
  · subst hid; subst ho
    constructor
    · intro _
      simp [mkPastOrder]
    · intro _
      rw [show (initialState env).documents = MOCK_DOCUMENTS env from rfl,
        MOCK_DOCUMENTS, hasLabel_flatMap_iff]
      refine ⟨(pastId i, mkPastOrder env i), ?_, rfl, rfl⟩
      unfold MOCK_ORDERS
      exact List.mem_cons.2 (Or.inr (List.mem_map.2 ⟨i, hi, rfl⟩))

theorem wellKeyed_initial (env : Env) :
    WellKeyed (initialState env).documents :=
  wellKeyed_flatMap env (MOCK_ORDERS env)

theorem hasLabel_upsert_label (docs : List (String × Document)) (k : String)
    (d : Document) (id : String) (ht : d.type = DocType.Label)
    (ho : d.orderId = id) :
    hasLabelDocument (upsert docs k d) id = true := by
  unfold hasLabelDocument
  rw [List.any_eq_true]
  exact ⟨(k, d), mem_upsert_self docs k d, by rw [decide_eq_true_eq]; exact ⟨ht, ho⟩⟩

theorem hasLabel_upsert_ne (docs : List (String × Document))
    (hwk : WellKeyed docs) (id oid : String) (hne : id ≠ oid) (d : Document)
    (ho : d.orderId = oid) :
    hasLabelDocument (upsert docs (labelKey oid) d) id =
      hasLabelDocument docs id := by
  apply bool_eq_of_iff
  unfold hasLabelDocument
  rw [List.any_eq_true, List.any_eq_true]
  constructor
  · rintro ⟨kv, hkv, hp⟩
    rcases mem_upsert docs (labelKey oid) d kv hkv with h | h
    · exact ⟨kv, h, hp⟩
    · rw [decide_eq_true_eq] at hp
      have : d.orderId = id := by rw [show d = kv.2 from by rw [h]]; exact hp.2
      exact absurd (ho ▸ this).symm hne
  · rintro ⟨kv, hkv, hp⟩
    rw [decide_eq_true_eq] at hp
    refine ⟨kv, ?_, by rw [decide_eq_true_eq]; exact hp⟩
    apply mem_upsert_of_ne docs (labelKey oid) d kv hkv
    intro hk
    have h1 : kv.1 = labelKey kv.2.orderId := hwk kv hkv hp.1
    rw [hk] at h1
    have h2 : oid = kv.2.orderId := labelKey_inj h1
    rw [hp.2] at h2
    exact hne h2.symm

theorem alookup_updateOrderStatus_self (s : StoreState) (oid : String)
    (st : OrderStatus) (o : Order)
    (h : alookup (updateOrderStatus s oid st).orders oid = some o) :
    o.order_status = st := by
  unfold updateOrderStatus at h
  cases h0 : alookup s.orders oid with
  | none =>
      rw [h0] at h
      simp at h
      rw [h0] at h
      cases h
  | some o0 =>
      rw [h0] at h
      simp at h
      rw [alookup_upsert_self] at h
      cases h
      rfl

theorem labelInv_advance (s : StoreState) (oid : String) (st : OrderStatus)
    (t : String) (r : Nat) (f : Bool) (hinv : LabelInv s)
    (hwk : WellKeyed s.documents) (hst : st ≠ .OPEN) :
    LabelInv (updateOrderStatusAndGenerateLabel s oid st t r f).1 := by
  intro id o hlk
  rw [advance_orders] at hlk
  rw [advance_documents]
  by_cases hid : id = oid
  · subst hid
    rw [hasLabel_upsert_label s.documents (labelKey id) (advanceLabel id t r)
      id (advanceLabel_type id t r) (advanceLabel_orderId id t r)]
    have hstat := alookup_updateOrderStatus_self s id st o hlk
    simp [hstat, hst]
  · rw [hasLabel_upsert_ne s.documents hwk id oid hid (advanceLabel oid t r)
      (advanceLabel_orderId oid t r)]
    rw [alookup_updateOrderStatus_ne s oid st id hid] at hlk
    exact hinv id o hlk

theorem wellKeyed_advance (s : StoreState) (oid : String) (st : OrderStatus)
    (t : String) (r : Nat) (f : Bool) (hwk : WellKeyed s.documents) :
    WellKeyed (updateOrderStatusAndGenerateLabel s oid st t r f).1.documents := by
  rw [advance_documents]
  intro kv hkv ht
  rcases mem_upsert s.documents (labelKey oid) (advanceLabel oid t r) kv hkv
    with h | h
  · exact hwk kv h ht
  · rw [h]
    rfl

theorem reachable_inv (s : StoreState) (h : Reachable s) :
    LabelInv s ∧ WellKeyed s.documents := by
  induction h with
  | seed env => exact ⟨labelInv_initial env, wellKeyed_initial env⟩
  | advance s oid st t r f hr hst ih =>
      exact ⟨labelInv_advance s oid st t r f ih.1 ih.2 hst,
        wellKeyed_advance s oid st t r f ih.2⟩

theorem updateOrderStatus_orders_of_status (s : StoreState) (id : String)
    (st : OrderStatus)
    (h : ∀ o, alookup s.orders id = some o → o.order_status = st) :
    (updateOrderStatus s id st).orders = s.orders := by
  unfold updateOrderStatus
  cases h0 : alookup s.orders id with
  | none => rfl
  | some o =>
      simp
      have ho : { o with order_status := st } = o := by
        obtain ⟨a, b, c, d, e, f, g⟩ := o
        have hc : c = st := h _ h0
        subst hc
        rfl
      rw [ho]
      exact upsert_alookup_eq s.orders id o h0

theorem docsFor_append (l₁ l₂ : List (String × Document)) (id : String) :
    docsFor (l₁ ++ l₂) id = docsFor l₁ id ++ docsFor l₂ id := by
  simp [docsFor]

theorem docsFor_mkDocsFor_ne (env : Env) (kv : String × Order) (id : String)
    (h : kv.1 ≠ id) : docsFor (mkDocsFor env kv) id = [] := by
  cases hdel : kv.2.order_status <;>
    simp [mkDocsFor, docsFor, stdDocNames, mkStdDoc, mkSeedLabelDoc, hdel, h]

theorem docsFor_mkDocsFor_open (env : Env) (oid : String) (o : Order)
    (ho : o.order_status = .OPEN) :
    docsFor (mkDocsFor env (oid, o)) oid =
      stdDocNames.map (mkStdDoc oid o) := by
  simp [mkDocsFor, docsFor, stdDocNames, mkStdDoc, ho]

theorem docsFor_pastList (env : Env) (l : List Nat)
    (h : ∀ i ∈ l, pastId i ≠ "ORD340001") :
    docsFor ((l.map fun i => (pastId i, mkPastOrder env i)).flatMap
      (mkDocsFor env)) "ORD340001" = [] := by
  induction l with
  | nil => rfl
  | cons j t ih =>
      rw [List.map_cons, List.flatMap_cons, docsFor_append]
      rw [docsFor_mkDocsFor_ne env _ _ (h j (by simp))]
      rw [ih (fun i hi => h i (by simp [hi]))]
      rfl

theorem docsFor_mock_open (env : Env) :
    docsFor (MOCK_DOCUMENTS env) "ORD340001" =
      stdDocNames.map (mkStdDoc "ORD340001" (openOrder env)) := by
  rw [MOCK_DOCUMENTS, MOCK_ORDERS, List.flatMap_cons, docsFor_append]
  rw [docsFor_mkDocsFor_open env "ORD340001" (openOrder env) rfl]
  rw [docsFor_pastList env loopIndices pastId_ne_open]
  simp

theorem labelCount_eq_zero_iff (docs : List (String × Document))
    (id : String) :
    labelCount docs id = 0 ↔ hasLabelDocument docs id = false := by
  unfold labelCount hasLabelDocument
  rw [List.length_eq_zero, List.filter_eq_nil_iff, List.any_eq_false]

theorem mkShipment_orderId (env : Env) (a : String) (o : Order) :
    (mkShipment env a o).orderId = a := rfl

theorem shipmentsFor_map (env : Env) (ords : List (String × Order))
    (id : String) :
    shipmentsFor (ords.map fun kv => ("SHP-" ++ kv.1, mkShipment env kv.1 kv.2))
        id =
      (ords.filter fun kv => decide (kv.1 = id)).map
        (fun kv => ("SHP-" ++ kv.1, mkShipment env kv.1 kv.2)) := by
  unfold shipmentsFor
  induction ords with
  | nil => rfl
  | cons kv t ih =>
      rw [List.map_cons, List.filter_cons, List.filter_cons]
      by_cases h : kv.1 = id <;> simp [mkShipment_orderId, h, ih]

theorem filter_pastList_key (env : Env) (l : List Nat)
    (h : ∀ i ∈ l, pastId i ≠ "ORD340001") :
    ((l.map fun i => (pastId i, mkPastOrder env i)).filter
      fun kv => decide (kv.1 = "ORD340001")) = [] := by
  induction l with
  | nil => rfl
  | cons j t ih =>
      rw [List.map_cons, List.filter_cons]
      simp [h j (by simp)]
      intro i hi
      exact h i (by simp [hi])

theorem shipmentsFor_mock_open (env : Env) :
    shipmentsFor (MOCK_SHIPMENTS env) "ORD340001" =
      [("SHP-ORD340001", mkShipment env "ORD340001" (openOrder env))] := by
  rw [MOCK_SHIPMENTS, shipmentsFor_map, MOCK_ORDERS, List.filter_cons]
  simp [filter_pastList_key env loopIndices pastId_ne_open]

/-- C2: at every state observable through the lifecycle core — the
seeded store under any draws of the ambient randomness, and every state
an `advance` call with a forward target status produces from one — a
Label document for an order id present in the store exists if and only
if that order's status is not OPEN. -/
theorem label_existence_invariant (s : StoreState) (h : Reachable s) :
    LabelInv s :=
  (reachable_inv s h).1

/-- Witness for C2: the invariant holds concretely after advancing the
open order of the seeded store to SHIPPED. -/
theorem label_existence_invariant_witness :
    LabelInv (updateOrderStatusAndGenerateLabel (initialState env0)
      "ORD340001" .SHIPPED "2024-06-02T00:00:00.000Z" 0 false).1 :=
  label_existence_invariant _
    (Reachable.advance (initialState env0) "ORD340001" .SHIPPED
      "2024-06-02T00:00:00.000Z" 0 false (Reachable.seed env0) (by decide))

/-- C1: evaluation of the code at the failing input.  Advancing the open
order `ORD340001` to SHIPPED with the persistence step failing is
reported to the caller as a failure (`false`), yet the order's status is
left advanced to SHIPPED; moreover no run of the thunk ever writes the
shipment map.  The transition is not an atomic all-or-nothing commit. -/
theorem advance_failure_not_rolled_back :
    (updateOrderStatusAndGenerateLabel seeded "ORD340001" .SHIPPED
        "2024-06-02T00:00:00.000Z" 0 true).2 = false ∧
    (alookup (updateOrderStatusAndGenerateLabel seeded "ORD340001" .SHIPPED
        "2024-06-02T00:00:00.000Z" 0 true).1.orders "ORD340001").map
        Order.order_status = some .SHIPPED ∧
    (updateOrderStatusAndGenerateLabel seeded "ORD340001" .SHIPPED
        "2024-06-02T00:00:00.000Z" 0 true).1.shipments = seeded.shipments :=
  ⟨rfl, by decide, rfl⟩

/-- C3: evaluation of the code at the failing input.  Advancing the OPEN
order `ORD340001` directly to DELIVERED — not the immediate successor —
is accepted: the thunk reports success, the order's status is set to
DELIVERED, and a Label document is even created.  No `InvalidTransition`
guard exists anywhere in the transition path. -/
theorem advance_skip_transition_accepted :
    (updateOrderStatusAndGenerateLabel seeded "ORD340001" .DELIVERED
        "2024-06-02T00:00:00.000Z" 0 false).2 = true ∧
    (alookup (updateOrderStatusAndGenerateLabel seeded "ORD340001" .DELIVERED
        "2024-06-02T00:00:00.000Z" 0 false).1.orders "ORD340001").map
        Order.order_status = some .DELIVERED ∧
    hasLabelDocument (updateOrderStatusAndGenerateLabel seeded "ORD340001"
        .DELIVERED "2024-06-02T00:00:00.000Z" 0 false).1.documents
        "ORD340001" = true :=
  ⟨rfl, by decide, by decide⟩

/-- C5: evaluation of the code at the failing input.  A successful
advance of the open order `ORD340001` to SHIPPED leaves the shipment map
completely unchanged: the shipment keeps status `Order Received`,
progress 20, its two seed tracking events and its old `lastUpdate` text
— no in-transit event is appended and progress never becomes 60. -/
theorem advance_shipped_shipment_untouched :
    (updateOrderStatusAndGenerateLabel seeded "ORD340001" .SHIPPED
        "2024-06-02T00:00:00.000Z" 0 false).2 = true ∧
    (updateOrderStatusAndGenerateLabel seeded "ORD340001" .SHIPPED
        "2024-06-02T00:00:00.000Z" 0 false).1.shipments = seeded.shipments ∧
    (alookup seeded.shipments "SHP-ORD340001").map
        (fun sh => (sh.status, sh.progress, sh.tracking.length, sh.lastUpdate)) =
      some (.orderReceived, 20, 2, "Order received and processing") :=
  ⟨rfl, rfl, by decide⟩

/-- C6: evaluation of the code at the failing input.  The thunk takes no
carrier argument at all (the carrier chosen in the payment flow is never
passed down), and with the seeded shipment of `ORD340001` carrying
`DHL Express`, the Label created on advancing to SHIPPED carries the
hard-coded `FedEx` and a fresh random tracking number — not the
shipment's carrier and tracking number (the `ORD34001` branch that would
pick DHL misspells the order id and is dead). -/
theorem advance_label_carrier_mismatch :
    (alookup (updateOrderStatusAndGenerateLabel seeded "ORD340001" .SHIPPED
        "2024-06-02T00:00:00.000Z" 0 false).1.documents
        (labelKey "ORD340001")).map (fun d => (d.carrier, d.trackingNumber)) =
      some (some "FedEx", some "TRK100000") ∧
    (alookup (updateOrderStatusAndGenerateLabel seeded "ORD340001" .SHIPPED
        "2024-06-02T00:00:00.000Z" 0 false).1.shipments "SHP-ORD340001").map
        Shipment.carrier = some "DHL Express" ∧
    ("FedEx" : String) ≠ "DHL Express" :=
  ⟨by decide, by decide, by decide⟩

/-- C9: evaluation of the code at the failing input.  Advancing an order
id not present in the store reports success (`true`) instead of a
NotFound failure: the order map is silently left unchanged while a stray
Label document for the unknown id is still created. -/
theorem advance_unknown_order_reports_success :
    (updateOrderStatusAndGenerateLabel seeded "ORD999999" .SHIPPED
        "2024-06-02T00:00:00.000Z" 0 false).2 = true ∧
    (updateOrderStatusAndGenerateLabel seeded "ORD999999" .SHIPPED
        "2024-06-02T00:00:00.000Z" 0 false).1.orders = seeded.orders ∧
    (alookup (updateOrderStatusAndGenerateLabel seeded "ORD999999" .SHIPPED
        "2024-06-02T00:00:00.000Z" 0 false).1.documents
        (labelKey "ORD999999")).isSome = true :=
  ⟨rfl, rfl, by decide⟩

/-- A second concrete draw environment, differing from `env0` only in
the carrier draw, to exhibit the seed randomness. -/
def env1 : Env := { env0 with carrierDraw := fun _ => 1 }

/-- C10: evaluation of the code at the failing input.  Two runs of the
thunk on identical store states, identical timestamps and identical
arguments differ when the ambient `Math.random()` draw differs (the
Label's tracking number embeds the draw), and the seeded shipment's
carrier likewise depends on the seed-time random carrier pick: neither
`advance` nor `seed` is a function of the store state and caller inputs
alone. -/
theorem advance_and_seed_depend_on_random_draws :
    (updateOrderStatusAndGenerateLabel seeded "ORD340001" .SHIPPED
        "2024-06-02T00:00:00.000Z" 0 false).1 ≠
      (updateOrderStatusAndGenerateLabel seeded "ORD340001" .SHIPPED
        "2024-06-02T00:00:00.000Z" 1 false).1 ∧
    (mkShipment env0 "ORD340001" (openOrder env0)).carrier ≠
      (mkShipment env1 "ORD340001" (openOrder env1)).carrier := by
  constructor
  · intro h
    have h2 := congrArg
      (fun st => alookup st.documents (labelKey "ORD340001")) h
    exact absurd h2 (by decide)
  · decide

/-- Counterexample for C4: retrying `advance(ORD340001, SHIPPED)` does
not reproduce exactly the same final store state — the retry overwrites
the Label document with a fresh random tracking number and a fresh date,
so the stored label differs between one call and two. -/
theorem advance_shipped_retry_not_identical :
    alookup (updateOrderStatusAndGenerateLabel
        (updateOrderStatusAndGenerateLabel seeded "ORD340001" .SHIPPED
          "2024-06-02T00:00:00.000Z" 0 false).1
        "ORD340001" .SHIPPED "2024-06-02T00:05:00.000Z" 1 false).1.documents
        (labelKey "ORD340001") ≠
      alookup (updateOrderStatusAndGenerateLabel seeded "ORD340001" .SHIPPED
        "2024-06-02T00:00:00.000Z" 0 false).1.documents
        (labelKey "ORD340001") := by
  decide

/-- C4 (amended): calling `advance(id, SHIPPED)` twice in succession
yields the same final state as a single call except possibly for the
content of the single Label document (whose date and tracking number the
retry redraws): the order map and shipment map are unchanged by the
retry (hence no duplicated tracking events and the status is still
SHIPPED), the number of Label documents for the order is unchanged
(the retry overwrites the label in place under the same key), the total
document count is unchanged, and every document other than the order's
label entry is unchanged. -/
theorem advance_shipped_retry_effect (s : StoreState) (id t1 t2 : String)
    (r1 r2 : Nat) :
    (updateOrderStatusAndGenerateLabel
        (updateOrderStatusAndGenerateLabel s id .SHIPPED t1 r1 false).1
        id .SHIPPED t2 r2 false).1.orders =
      (updateOrderStatusAndGenerateLabel s id .SHIPPED t1 r1 false).1.orders ∧
    (updateOrderStatusAndGenerateLabel
        (updateOrderStatusAndGenerateLabel s id .SHIPPED t1 r1 false).1
        id .SHIPPED t2 r2 false).1.shipments =
      (updateOrderStatusAndGenerateLabel s id .SHIPPED t1 r1 false).1.shipments ∧
    labelCount (updateOrderStatusAndGenerateLabel
        (updateOrderStatusAndGenerateLabel s id .SHIPPED t1 r1 false).1
        id .SHIPPED t2 r2 false).1.documents id =
      labelCount (updateOrderStatusAndGenerateLabel s id .SHIPPED t1 r1
        false).1.documents id ∧
    (updateOrderStatusAndGenerateLabel
        (updateOrderStatusAndGenerateLabel s id .SHIPPED t1 r1 false).1
        id .SHIPPED t2 r2 false).1.documents.length =
      (updateOrderStatusAndGenerateLabel s id .SHIPPED t1 r1
        false).1.documents.length ∧
    ∀ k, k ≠ labelKey id →
      alookup (updateOrderStatusAndGenerateLabel
        (updateOrderStatusAndGenerateLabel s id .SHIPPED t1 r1 false).1
        id .SHIPPED t2 r2 false).1.documents k =
      alookup (updateOrderStatusAndGenerateLabel s id .SHIPPED t1 r1
        false).1.documents k := by
  set s1 := (updateOrderStatusAndGenerateLabel s id .SHIPPED t1 r1 false).1
    with hs1
  refine ⟨?_, advance_shipments s1 id .SHIPPED t2 r2 false, ?_, ?_, ?_⟩
  · rw [advance_orders]
    apply updateOrderStatus_orders_of_status
    intro o ho
    rw [hs1, advance_orders] at ho
    exact alookup_updateOrderStatus_self s id .SHIPPED o ho
  · rw [advance_documents s1 id .SHIPPED t2 r2 false]
    unfold labelCount
    apply filter_length_upsert _ s1.documents (labelKey id)
      (advanceLabel id t2 r2) (advanceLabel id t1 r1)
    · rw [hs1, advance_documents]
      exact alookup_upsert_self _ _ _
    · rfl
  · rw [advance_documents s1 id .SHIPPED t2 r2 false]
    apply length_upsert_of_alookup s1.documents (labelKey id)
      (advanceLabel id t2 r2) (advanceLabel id t1 r1)
    rw [hs1, advance_documents]
    exact alookup_upsert_self _ _ _
  · intro k hk
    rw [advance_documents s1 id .SHIPPED t2 r2 false]
    exact alookup_upsert_ne _ _ _ _ hk

/-- Witness for C4 (amended): the retry-effect theorem applied to the
seeded store at concrete inputs, with the per-key frame condition
instantiated at the invoice document of the retried order. -/
theorem advance_shipped_retry_effect_witness :
    (updateOrderStatusAndGenerateLabel
        (updateOrderStatusAndGenerateLabel seeded "ORD340001" .SHIPPED
          "2024-06-02T00:00:00.000Z" 0 false).1
        "ORD340001" .SHIPPED "2024-06-02T00:05:00.000Z" 1 false).1.orders =
      (updateOrderStatusAndGenerateLabel seeded "ORD340001" .SHIPPED
        "2024-06-02T00:00:00.000Z" 0 false).1.orders ∧
    alookup (updateOrderStatusAndGenerateLabel
        (updateOrderStatusAndGenerateLabel seeded "ORD340001" .SHIPPED
          "2024-06-02T00:00:00.000Z" 0 false).1
        "ORD340001" .SHIPPED "2024-06-02T00:05:00.000Z" 1 false).1.documents
        "DOC-ORD340001-INVOICE" =
      alookup (updateOrderStatusAndGenerateLabel seeded "ORD340001" .SHIPPED
        "2024-06-02T00:00:00.000Z" 0 false).1.documents
        "DOC-ORD340001-INVOICE" :=
  ⟨(advance_shipped_retry_effect seeded "ORD340001" "2024-06-02T00:00:00.000Z"
      "2024-06-02T00:05:00.000Z" 0 1).1,
   (advance_shipped_retry_effect seeded "ORD340001" "2024-06-02T00:00:00.000Z"
      "2024-06-02T00:05:00.000Z" 0 1).2.2.2.2 "DOC-ORD340001-INVOICE"
      (by decide)⟩

/-- C8: evaluation of the code at the failing input.  Advancing
`ORD340001` from SHIPPED to DELIVERED reports success and sets the order
status, but it rewrites the Label document (new date and tracking
number) instead of leaving the document set unchanged, and it leaves the
shipment untouched — no `Reached Destination` event is appended and
progress stays at its seed value instead of becoming 100. -/
theorem advance_delivered_rewrites_label_and_skips_shipment :
    (updateOrderStatusAndGenerateLabel
        (updateOrderStatusAndGenerateLabel seeded "ORD340001" .SHIPPED
          "2024-06-02T00:00:00.000Z" 0 false).1
        "ORD340001" .DELIVERED "2024-06-03T00:00:00.000Z" 1 false).2 = true ∧
    (alookup (updateOrderStatusAndGenerateLabel
        (updateOrderStatusAndGenerateLabel seeded "ORD340001" .SHIPPED
          "2024-06-02T00:00:00.000Z" 0 false).1
        "ORD340001" .DELIVERED "2024-06-03T00:00:00.000Z" 1 false).1.orders
        "ORD340001").map Order.order_status = some .DELIVERED ∧
    alookup (updateOrderStatusAndGenerateLabel
        (updateOrderStatusAndGenerateLabel seeded "ORD340001" .SHIPPED
          "2024-06-02T00:00:00.000Z" 0 false).1
        "ORD340001" .DELIVERED "2024-06-03T00:00:00.000Z" 1 false).1.documents
        (labelKey "ORD340001") ≠
      alookup (updateOrderStatusAndGenerateLabel seeded "ORD340001" .SHIPPED
        "2024-06-02T00:00:00.000Z" 0 false).1.documents
        (labelKey "ORD340001") ∧
    (updateOrderStatusAndGenerateLabel
        (updateOrderStatusAndGenerateLabel seeded "ORD340001" .SHIPPED
          "2024-06-02T00:00:00.000Z" 0 false).1
        "ORD340001" .DELIVERED "2024-06-03T00:00:00.000Z" 1 false).1.shipments =
      (updateOrderStatusAndGenerateLabel seeded "ORD340001" .SHIPPED
        "2024-06-02T00:00:00.000Z" 0 false).1.shipments ∧
    (alookup (updateOrderStatusAndGenerateLabel
        (updateOrderStatusAndGenerateLabel seeded "ORD340001" .SHIPPED
          "2024-06-02T00:00:00.000Z" 0 false).1
        "ORD340001" .DELIVERED "2024-06-03T00:00:00.000Z" 1 false).1.shipments
        "SHP-ORD340001").map (fun sh => (sh.progress, sh.tracking.length)) =
      some (20, 2) :=
  ⟨rfl, by decide, by decide, rfl, by decide⟩

/-- C7: for every order of the seeded store whose status is OPEN (under
any draws of the ambient randomness), the store holds exactly 3
documents for it — Invoice, Packing List and Certificate of Origin, each
with status Final and dated at the order's placement timestamp — no
Label document, and exactly 1 shipment for it, whose status is
`Order Received`, whose progress is 20 and whose initial tracking
sequence has exactly two entries. -/
theorem seed_open_order_state (env : Env) (id : String) (o : Order)
    (hlk : alookup (MOCK_ORDERS env) id = some o)
    (hopen : o.order_status = .OPEN) :
    (docsFor (MOCK_DOCUMENTS env) id).length = 3 ∧
    (docsFor (MOCK_DOCUMENTS env) id).map (fun kv => kv.2.type) =
      [DocType.Invoice, DocType.PackingList, DocType.CertificateOfOrigin] ∧
    (∀ kv ∈ docsFor (MOCK_DOCUMENTS env) id,
      kv.2.status = DocStatus.Final ∧
        kv.2.date = o.order_placed_timestamp) ∧
    labelCount (MOCK_DOCUMENTS env) id = 0 ∧
    (shipmentsFor (MOCK_SHIPMENTS env) id).length = 1 ∧
    (∀ kv ∈ shipmentsFor (MOCK_SHIPMENTS env) id,
      kv.2.status = ShipmentStatus.orderReceived ∧ kv.2.progress = 20 ∧
        kv.2.tracking.length = 2) := by
  obtain ⟨hid, ho⟩ := mock_orders_open env id o hlk hopen
  subst hid
  subst ho
  refine ⟨?_, ?_, ?_, ?_, ?_, ?_⟩
  · rw [docsFor_mock_open]
    rfl
  · rw [docsFor_mock_open]
    rfl
  · rw [docsFor_mock_open]
    intro kv hkv
    simp [stdDocNames] at hkv
    rcases hkv with h | h | h <;> subst h <;> exact ⟨rfl, rfl⟩
  · apply (labelCount_eq_zero_iff _ _).mpr
    have hiff := labelInv_initial env "ORD340001" (openOrder env) rfl
    cases hb : hasLabelDocument (MOCK_DOCUMENTS env) "ORD340001" with
    | false => rfl
    | true => exact absurd rfl (hiff.mp hb)
  · rw [shipmentsFor_mock_open]
    rfl
  · rw [shipmentsFor_mock_open]
    intro kv hkv
    simp at hkv
    subst hkv
    exact ⟨rfl, rfl, rfl⟩

/-- Witness for C7: the seed-shape theorem applied to the open order of
the concretely seeded store, with both per-entry conjuncts instantiated
at the order's invoice document and its shipment. -/
theorem seed_open_order_state_witness :
    (docsFor (MOCK_DOCUMENTS env0) "ORD340001").length = 3 ∧
    (docsFor (MOCK_DOCUMENTS env0) "ORD340001").map (fun kv => kv.2.type) =
      [DocType.Invoice, DocType.PackingList, DocType.CertificateOfOrigin] ∧
    ((mkStdDoc "ORD340001" (openOrder env0)
        ("Invoice", DocType.Invoice)).2.status = DocStatus.Final ∧
      (mkStdDoc "ORD340001" (openOrder env0)
        ("Invoice", DocType.Invoice)).2.date =
        (openOrder env0).order_placed_timestamp) ∧
    labelCount (MOCK_DOCUMENTS env0) "ORD340001" = 0 ∧
    (shipmentsFor (MOCK_SHIPMENTS env0) "ORD340001").length = 1 ∧
    ((mkShipment env0 "ORD340001" (openOrder env0)).status =
        ShipmentStatus.orderReceived ∧
      (mkShipment env0 "ORD340001" (openOrder env0)).progress = 20 ∧
      (mkShipment env0 "ORD340001" (openOrder env0)).tracking.length = 2) :=
  ⟨(seed_open_order_state env0 "ORD340001" (openOrder env0) rfl rfl).1,
   (seed_open_order_state env0 "ORD340001" (openOrder env0) rfl rfl).2.1,
   (seed_open_order_state env0 "ORD340001" (openOrder env0) rfl rfl).2.2.1
     (mkStdDoc "ORD340001" (openOrder env0) ("Invoice", DocType.Invoice))
     (by decide),
   (seed_open_order_state env0 "ORD340001" (openOrder env0) rfl rfl).2.2.2.1,
   (seed_open_order_state env0 "ORD340001" (openOrder env0) rfl rfl).2.2.2.2.1,
   (seed_open_order_state env0 "ORD340001" (openOrder env0) rfl rfl).2.2.2.2.2
     ("SHP-ORD340001", mkShipment env0 "ORD340001" (openOrder env0))
     (by decide)⟩

end Sambhav
